import Mathlib

/-!
# Deployment flags and the mint script of eth-erc721-nft-example

A shallow embedding of `migrations/2_deploy_contracts.js` and
`scripts/example_mint.ts`.

* `process.env` is a lookup from variable names to optional strings
  (a variable is unset, or set to a string, possibly the empty one).
* JavaScript values that occur in the two files are `undefined`, strings
  and booleans; `||` and `!` follow JavaScript truthiness.
* The external collaborators of the mint script (wallet provider, web3,
  the file system, the JSON parser, the remote node) are a `World` of
  outcomes; `main` threads a trace of the effects it performs.
-/

/-- JavaScript values appearing in the two scripts. -/
inductive JSVal where
  | undefined
  | str (s : String)
  | bool (b : Bool)
deriving DecidableEq, Repr

/-- The environment of the process: `process.env`. -/
abbrev Env := String → Option String

/-- Reading `process.env.X`: the string when set, `undefined` otherwise. -/
def processEnv (env : Env) (name : String) : JSVal :=
  match env name with
  | some s => JSVal.str s
  | none => JSVal.undefined

/-- JavaScript truthiness: `undefined`, `""` and `false` are falsy. -/
def truthy : JSVal → Bool
  | JSVal.undefined => false
  | JSVal.str s => decide (s ≠ "")
  | JSVal.bool b => b

/-- JavaScript `a || b`: the left operand when truthy, else the right one. -/
def jsOr (a b : JSVal) : JSVal :=
  if truthy a then a else b

/-- JavaScript `! a`. -/
def jsNot (a : JSVal) : JSVal :=
  JSVal.bool (!truthy a)

/-- An environment given by a list of bindings (first binding wins). -/
def envOf (bindings : List (String × String)) : Env :=
  fun name => (bindings.find? (fun kv => decide (kv.1 = name))).map Prod.snd

/-- A variable is missing when it is unset or set to the empty string. -/
def missing (v : Option String) : Prop :=
  v = none ∨ v = some ""

instance (v : Option String) : Decidable (missing v) := by
  unfold missing; exact inferInstance

namespace Migration

/-- Line 5: `const DEPLOY_ALL = process.env.DEPLOY_ALL;` -/
def DEPLOY_ALL (env : Env) : JSVal :=
  processEnv env "DEPLOY_ALL"

/-- Line 6: `process.env.DEPLOY_ACCESSORIES_SALE || DEPLOY_ALL` -/
def DEPLOY_ACCESSORIES_SALE (env : Env) : JSVal :=
  jsOr (processEnv env "DEPLOY_ACCESSORIES_SALE") (DEPLOY_ALL env)

/-- Line 7: `process.env.DEPLOY_ACCESSORIES || DEPLOY_ACCESSORIES_SALE || DEPLOY_ALL` -/
def DEPLOY_ACCESSORIES (env : Env) : JSVal :=
  jsOr (jsOr (processEnv env "DEPLOY_ACCESSORIES") (DEPLOY_ACCESSORIES_SALE env))
    (DEPLOY_ALL env)

/-- Line 8: `process.env.DEPLOY_CREATURES_SALE || DEPLOY_ALL` -/
def DEPLOY_CREATURES_SALE (env : Env) : JSVal :=
  jsOr (processEnv env "DEPLOY_CREATURES_SALE") (DEPLOY_ALL env)

/-- Line 11:
`process.env.DEPLOY_CREATURES || DEPLOY_CREATURES_SALE || DEPLOY_ALL || (! DEPLOY_ACCESSORIES)` -/
def DEPLOY_CREATURES (env : Env) : JSVal :=
  jsOr
    (jsOr (jsOr (processEnv env "DEPLOY_CREATURES") (DEPLOY_CREATURES_SALE env))
      (DEPLOY_ALL env))
    (jsNot (DEPLOY_ACCESSORIES env))

/-- The four dependent flags, in the order of the source. -/
def computedFlags (env : Env) : List JSVal :=
  [DEPLOY_ACCESSORIES_SALE env, DEPLOY_ACCESSORIES env,
   DEPLOY_CREATURES_SALE env, DEPLOY_CREATURES env]

/-- Number of computed flags that are truthy. -/
def trueFlagCount (env : Env) : Nat :=
  ((computedFlags env).filter truthy).length

/-- The deployer handed to the migration: the artifacts it was asked to
deploy so far, and whether the next `deploy` call succeeds. -/
structure Deployer where
  deployed : List String
  deployOk : Bool
deriving DecidableEq, Repr

/-- Result of running the exported migration function. -/
structure MigrationRun where
  deployer : Deployer
  outcome : Except String Unit

/-- The method `deployer.deploy(artifact)`: records the call; rejects when the
deployment fails. -/
def Deployer.deploy (d : Deployer) (artifact : String) : Deployer × Except String Unit :=
  ({ d with deployed := d.deployed ++ [artifact] },
   if d.deployOk then Except.ok () else Except.error "deployment failed")

/-- Lines 13-15: the exported function,
`async (deployer, network, addresses) => { await deployer.deploy(ExampleNFT); }`.
The module-level flags are computed from `env` when the module loads; the body
does not read them. -/
def moduleExports (_env : Env) (deployer : Deployer) (_network : String)
    (_addresses : List String) : MigrationRun :=
  let r := deployer.deploy "ExampleNFT"
  { deployer := r.1, outcome := r.2 }

/-- Number of `deployer.deploy` calls made by the migration on a fresh deployer. -/
def deployCallCount (env : Env) (deployOk : Bool) (network : String)
    (addresses : List String) : Nat :=
  (moduleExports env { deployed := [], deployOk := deployOk } network addresses).deployer.deployed.length

end Migration

namespace ExampleMint

/-- JavaScript string conversion, as performed by `+` with a string operand. -/
def jsToString : JSVal → String
  | JSVal.undefined => "undefined"
  | JSVal.str s => s
  | JSVal.bool true => "true"
  | JSVal.bool false => "false"

/-- Line 5: `const MNEMONIC = process.env.MNEMONIC;` -/
def MNEMONIC (env : Env) : JSVal :=
  processEnv env "MNEMONIC"

/-- Line 6: `process.env.INFURA_KEY || process.env.ALCHEMY_KEY` -/
def NODE_API_KEY (env : Env) : JSVal :=
  jsOr (processEnv env "INFURA_KEY") (processEnv env "ALCHEMY_KEY")

/-- Line 7: `const isInfura = !!process.env.INFURA_KEY;` -/
def isInfura (env : Env) : Bool :=
  !(!truthy (processEnv env "INFURA_KEY"))

/-- Line 8: `const FACTORY_CONTRACT_ADDRESS = process.env.FACTORY_CONTRACT_ADDRESS;` -/
def FACTORY_CONTRACT_ADDRESS (env : Env) : JSVal :=
  processEnv env "FACTORY_CONTRACT_ADDRESS"

/-- Line 9: `const NFT_CONTRACT_ADDRESS = process.env.NFT_CONTRACT_ADDRESS;` -/
def NFT_CONTRACT_ADDRESS (env : Env) : JSVal :=
  processEnv env "NFT_CONTRACT_ADDRESS"

/-- Line 10: `const OWNER_ADDRESS = process.env.OWNER_ADDRESS;` -/
def OWNER_ADDRESS (env : Env) : JSVal :=
  processEnv env "OWNER_ADDRESS"

/-- Line 11: `const NETWORK = process.env.NETWORK;` -/
def NETWORK (env : Env) : JSVal :=
  processEnv env "NETWORK"

/-- Line 12: `const NUM_CREATURES = 1;` -/
def NUM_CREATURES : Nat := 1

/-- The message of lines 19-21. -/
def diagnostic : String :=
  "Please set a mnemonic, Alchemy/Infura key, owner, network, and contract address."

/-- The path segments of lines 36-38, resolved against the script directory. -/
def abiPath : List String :=
  ["..", "build", "contracts", "ExampleNFT.json"]

/-- Effects performed by the script, in order. -/
inductive Event where
  | consoleError (msg : String)
  | consoleLog (msg : String)
  | newHDWalletProvider (mnemonic : JSVal) (url : String)
  | newWeb3
  | readFileSync (path : List String)
  | jsonParse
  | newContract (abi : String) (address : JSVal) (gas : Nat)
  | send (method : String) (count : Nat) (recipient : JSVal) (sender : JSVal)
  | processExit (code : Nat)
deriving DecidableEq, Repr

/-- Outcome of the promise returned by `main()`. -/
inductive Outcome where
  | fulfilled
  | rejected (err : String)
deriving DecidableEq, Repr

/-- The external collaborators: for each call the script makes, whether it
returns or throws (rejects). -/
structure World where
  hdWalletProvider : JSVal → String → Except String Unit
  web3 : Except String Unit
  readFile : List String → Except String String
  parseAbi : String → Except String String
  contract : String → JSVal → Except String Unit
  preserveMint : JSVal → Nat → JSVal → JSVal → Except String JSVal

/-- What a run of `main()` did and how its promise settled. -/
structure Run where
  trace : List Event
  outcome : Outcome
deriving DecidableEq, Repr

/-- Line 18: `!MNEMONIC || !NODE_API_KEY || !OWNER_ADDRESS || !NETWORK` -/
def guardFires (env : Env) : Bool :=
  !truthy (MNEMONIC env) || !truthy (NODE_API_KEY env) || !truthy (OWNER_ADDRESS env)
    || !truthy (NETWORK env)

/-- Lines 25-26:
`NETWORK === 'mainnet' || NETWORK === 'live' ? 'mainnet' : 'rinkeby'` -/
def network (NETWORK : JSVal) : String :=
  if NETWORK = JSVal.str "mainnet" ∨ NETWORK = JSVal.str "live" then "mainnet" else "rinkeby"

/-- Lines 29-31: the second argument of the wallet provider. -/
def endpoint (env : Env) : String :=
  if isInfura env then
    "https://" ++ network (NETWORK env) ++ ".infura.io/v3/" ++ jsToString (NODE_API_KEY env)
  else
    "https://eth-" ++ network (NETWORK env) ++ ".alchemyapi.io/v2/"
      ++ jsToString (NODE_API_KEY env)

/-- Lines 17-54: `async function main()`. A throw inside the async function
 rejects its promise. -/
def main (env : Env) (w : World) : Run :=
  if guardFires env then
    { trace := [Event.consoleError diagnostic], outcome := Outcome.fulfilled }
  else
    let t1 := [Event.newHDWalletProvider (MNEMONIC env) (endpoint env)]
    match w.hdWalletProvider (MNEMONIC env) (endpoint env) with
    | Except.error e => { trace := t1, outcome := Outcome.rejected e }
    | Except.ok _ =>
    let t2 := t1 ++ [Event.newWeb3]
    match w.web3 with
    | Except.error e => { trace := t2, outcome := Outcome.rejected e }
    | Except.ok _ =>
    let t3 := t2 ++ [Event.readFileSync abiPath]
    match w.readFile abiPath with
    | Except.error e => { trace := t3, outcome := Outcome.rejected e }
    | Except.ok file =>
    let t4 := t3 ++ [Event.jsonParse]
    match w.parseAbi file with
    | Except.error e => { trace := t4, outcome := Outcome.rejected e }
    | Except.ok abi =>
    let t5 := t4 ++ [Event.newContract abi (FACTORY_CONTRACT_ADDRESS env) 1000000]
    match w.contract abi (FACTORY_CONTRACT_ADDRESS env) with
    | Except.error e => { trace := t5, outcome := Outcome.rejected e }
    | Except.ok _ =>
    let t6 := t5 ++ [Event.send "preserveMint" NUM_CREATURES (OWNER_ADDRESS env)
      (OWNER_ADDRESS env)]
    match w.preserveMint (FACTORY_CONTRACT_ADDRESS env) NUM_CREATURES (OWNER_ADDRESS env)
        (OWNER_ADDRESS env) with
    | Except.error e => { trace := t6, outcome := Outcome.rejected e }
    | Except.ok transactionHash =>
    { trace := t6 ++ [Event.consoleLog ("Minted creature. Transaction: "
        ++ jsToString transactionHash)],
      outcome := Outcome.fulfilled }

/-- Lines 56-64: `main().then(...).catch(...)`, the whole run of the script. -/
def script (env : Env) (w : World) : List Event :=
  match (main env w).outcome with
  | Outcome.fulfilled =>
    (main env w).trace ++ [Event.consoleLog "Done.", Event.processExit 0]
  | Outcome.rejected err =>
    (main env w).trace ++ [Event.consoleError err, Event.processExit 1]

/-- The exit codes passed to `exit` in a trace. -/
def exitCodes (t : List Event) : List Nat :=
  t.filterMap (fun e => match e with
    | Event.processExit c => some c
    | _ => none)

/-- An event that constructs a client object or touches the file system or
the remote node. -/
def Event.isActivity : Event → Bool
  | Event.newHDWalletProvider _ _ => true
  | Event.newWeb3 => true
  | Event.readFileSync _ => true
  | Event.jsonParse => true
  | Event.newContract _ _ _ => true
  | Event.send _ _ _ _ => true
  | _ => false

/-- An event that is a remote call. -/
def Event.isRemoteCall : Event → Bool
  | Event.send _ _ _ _ => true
  | _ => false

/-- A world in which every collaborator succeeds and the mint returns the
given transaction hash. -/
def cooperativeWorld (hash : String) : World where
  hdWalletProvider := fun _ _ => Except.ok ()
  web3 := Except.ok ()
  readFile := fun _ => Except.ok "\x7b\"abi\": []\x7d"
  parseAbi := fun _ => Except.ok "[]"
  contract := fun _ _ => Except.ok ()
  preserveMint := fun _ _ _ _ => Except.ok (JSVal.str hash)

/-- A world in which the remote mint call rejects. -/
def failingMintWorld (err : String) : World where
  hdWalletProvider := fun _ _ => Except.ok ()
  web3 := Except.ok ()
  readFile := fun _ => Except.ok "\x7b\"abi\": []\x7d"
  parseAbi := fun _ => Except.ok "[]"
  contract := fun _ _ => Except.ok ()
  preserveMint := fun _ _ _ _ => Except.error err

/-- An environment with an Alchemy key only and every address set. -/
def alchemyEnv : Env :=
  envOf [("MNEMONIC", "test test test"), ("ALCHEMY_KEY", "alch"),
    ("OWNER_ADDRESS", "0xA"), ("NETWORK", "live"), ("FACTORY_CONTRACT_ADDRESS", "0xF")]

/-- An environment with both keys set. -/
def bothKeysEnv : Env :=
  envOf [("MNEMONIC", "test test test"), ("INFURA_KEY", "inf"), ("ALCHEMY_KEY", "alch"),
    ("OWNER_ADDRESS", "0xA"), ("NETWORK", "ropsten"), ("FACTORY_CONTRACT_ADDRESS", "0xF")]

/-- An environment passing the guard in which FACTORY_CONTRACT_ADDRESS is unset. -/
def noFactoryEnv : Env :=
  envOf [("MNEMONIC", "test test test"), ("ALCHEMY_KEY", "alch"),
    ("OWNER_ADDRESS", "0xA"), ("NETWORK", "rinkeby")]

/-- An environment in which NETWORK is set to the empty string. -/
def emptyNetworkEnv : Env :=
  envOf [("MNEMONIC", "test test test"), ("INFURA_KEY", "inf"),
    ("OWNER_ADDRESS", "0xA"), ("NETWORK", ""), ("FACTORY_CONTRACT_ADDRESS", "0xF")]

end ExampleMint

open Migration
open ExampleMint

/-! ## Helper lemmas on truthiness -/

theorem truthy_processEnv_eq_false_iff (env : Env) (name : String) :
    truthy (processEnv env name) = false ↔ missing (env name) := by
  unfold processEnv missing
  cases h : env name with
  | none => simp [truthy]
  | some s => simp [truthy]

theorem truthy_jsOr (a b : JSVal) : truthy (jsOr a b) = (truthy a || truthy b) := by
  unfold jsOr
  cases h : truthy a <;> simp [h]

theorem jsOr_of_falsy (a b : JSVal) (h : truthy a = false) : jsOr a b = b := by
  simp [jsOr, h]

theorem jsOr_of_truthy (a b : JSVal) (h : truthy a = true) : jsOr a b = a := by
  simp [jsOr, h]

theorem truthy_processEnv_of_set (env : Env) (name s : String)
    (h : env name = some s) (hs : s ≠ "") : truthy (processEnv env name) = true := by
  simp [processEnv, h, truthy, hs]

theorem processEnv_of_unset (env : Env) (name : String) (h : env name = none) :
    processEnv env name = JSVal.undefined := by
  simp [processEnv, h]

/-! ## The migration: computed deployment flags -/

/-- C1: when the five deployment variables are all unset, the computed
DEPLOY_CREATURES flag is the boolean true and the computed DEPLOY_ACCESSORIES
flag is not truthy (it is undefined). -/
theorem all_unset_defaults_to_creatures (env : Env)
    (hAll : env "DEPLOY_ALL" = none)
    (hAccSale : env "DEPLOY_ACCESSORIES_SALE" = none)
    (hAcc : env "DEPLOY_ACCESSORIES" = none)
    (hCreSale : env "DEPLOY_CREATURES_SALE" = none)
    (hCre : env "DEPLOY_CREATURES" = none) :
    DEPLOY_CREATURES env = JSVal.bool true ∧
    truthy (DEPLOY_ACCESSORIES env) = false ∧
    DEPLOY_ACCESSORIES env = JSVal.undefined := by
  simp [DEPLOY_CREATURES, DEPLOY_ACCESSORIES, DEPLOY_CREATURES_SALE,
    DEPLOY_ACCESSORIES_SALE, DEPLOY_ALL, processEnv, hAll, hAccSale, hAcc,
    hCreSale, hCre, jsOr, jsNot, truthy]

theorem all_unset_defaults_to_creatures_witness :
    DEPLOY_CREATURES (envOf []) = JSVal.bool true ∧
    truthy (DEPLOY_ACCESSORIES (envOf [])) = false ∧
    DEPLOY_ACCESSORIES (envOf []) = JSVal.undefined :=
  all_unset_defaults_to_creatures (envOf []) rfl rfl rfl rfl rfl

/-- C2, as stated, fails: with DEPLOY_ACCESSORIES set to "1", DEPLOY_CREATURES
unset and DEPLOY_ALL set to "1", the computed DEPLOY_CREATURES flag is the
truthy string "1", not false. -/
theorem accessories_set_creatures_still_truthy :
    envOf [("DEPLOY_ACCESSORIES", "1"), ("DEPLOY_ALL", "1")] "DEPLOY_ACCESSORIES" = some "1" ∧
    envOf [("DEPLOY_ACCESSORIES", "1"), ("DEPLOY_ALL", "1")] "DEPLOY_CREATURES" = none ∧
    DEPLOY_CREATURES (envOf [("DEPLOY_ACCESSORIES", "1"), ("DEPLOY_ALL", "1")]) = JSVal.str "1" ∧
    truthy (DEPLOY_CREATURES (envOf [("DEPLOY_ACCESSORIES", "1"), ("DEPLOY_ALL", "1")])) = true := by
  decide

/-- C2, amended: when DEPLOY_ACCESSORIES is set to a non-empty string,
DEPLOY_CREATURES is unset, and DEPLOY_ALL and DEPLOY_CREATURES_SALE are unset or
empty, the computed DEPLOY_CREATURES flag is the boolean false, whatever
DEPLOY_ACCESSORIES_SALE holds. -/
theorem accessories_set_switches_creatures_off (env : Env) (acc : String)
    (hAcc : env "DEPLOY_ACCESSORIES" = some acc) (hne : acc ≠ "")
    (hCre : env "DEPLOY_CREATURES" = none)
    (hAll : missing (env "DEPLOY_ALL"))
    (hCreSale : missing (env "DEPLOY_CREATURES_SALE")) :
    DEPLOY_CREATURES env = JSVal.bool false := by
  have hA : truthy (processEnv env "DEPLOY_ACCESSORIES") = true :=
    truthy_processEnv_of_set env _ acc hAcc hne
  have hAllF : truthy (processEnv env "DEPLOY_ALL") = false :=
    (truthy_processEnv_eq_false_iff env _).2 hAll
  have hCSF : truthy (processEnv env "DEPLOY_CREATURES_SALE") = false :=
    (truthy_processEnv_eq_false_iff env _).2 hCreSale
  have hCF : truthy (processEnv env "DEPLOY_CREATURES") = false := by
    simp [processEnv, hCre, truthy]
  have hDA : truthy (DEPLOY_ACCESSORIES env) = true := by
    simp [DEPLOY_ACCESSORIES, truthy_jsOr, hA]
  have hDCS : truthy (DEPLOY_CREATURES_SALE env) = false := by
    simp [DEPLOY_CREATURES_SALE, DEPLOY_ALL, truthy_jsOr, hCSF, hAllF]
  have h1 : truthy (jsOr (processEnv env "DEPLOY_CREATURES") (DEPLOY_CREATURES_SALE env))
      = false := by
    simp [truthy_jsOr, hCF, hDCS]
  have h2 : truthy (jsOr (jsOr (processEnv env "DEPLOY_CREATURES")
      (DEPLOY_CREATURES_SALE env)) (DEPLOY_ALL env)) = false := by
    rw [truthy_jsOr, h1]; simp [DEPLOY_ALL, hAllF]
  unfold DEPLOY_CREATURES
  rw [jsOr_of_falsy _ _ h2]
  simp [jsNot, hDA]

theorem accessories_set_switches_creatures_off_witness :
    DEPLOY_CREATURES (envOf [("DEPLOY_ACCESSORIES", "1"), ("DEPLOY_ALL", "")])
      = JSVal.bool false :=
  accessories_set_switches_creatures_off
    (envOf [("DEPLOY_ACCESSORIES", "1"), ("DEPLOY_ALL", "")]) "1"
    (by decide) (by decide) (by decide) (by decide) (by decide)

/-- C3: when DEPLOY_ALL is a non-empty string, the four dependent computed
flags DEPLOY_ACCESSORIES_SALE, DEPLOY_ACCESSORIES, DEPLOY_CREATURES_SALE and
DEPLOY_CREATURES are all truthy, whatever the other four variables hold. -/
theorem deploy_all_turns_every_flag_on (env : Env) (all : String)
    (hAll : env "DEPLOY_ALL" = some all) (hne : all ≠ "") :
    truthy (DEPLOY_ACCESSORIES_SALE env) = true ∧
    truthy (DEPLOY_ACCESSORIES env) = true ∧
    truthy (DEPLOY_CREATURES_SALE env) = true ∧
    truthy (DEPLOY_CREATURES env) = true := by
  have hT : truthy (DEPLOY_ALL env) = true :=
    truthy_processEnv_of_set env _ all hAll hne
  simp [DEPLOY_ACCESSORIES_SALE, DEPLOY_ACCESSORIES, DEPLOY_CREATURES_SALE,
    DEPLOY_CREATURES, truthy_jsOr, hT]

theorem deploy_all_turns_every_flag_on_witness :
    truthy (DEPLOY_ACCESSORIES_SALE (envOf [("DEPLOY_ALL", "1"), ("DEPLOY_ACCESSORIES", ""),
      ("DEPLOY_CREATURES", "")])) = true ∧
    truthy (DEPLOY_ACCESSORIES (envOf [("DEPLOY_ALL", "1"), ("DEPLOY_ACCESSORIES", ""),
      ("DEPLOY_CREATURES", "")])) = true ∧
    truthy (DEPLOY_CREATURES_SALE (envOf [("DEPLOY_ALL", "1"), ("DEPLOY_ACCESSORIES", ""),
      ("DEPLOY_CREATURES", "")])) = true ∧
    truthy (DEPLOY_CREATURES (envOf [("DEPLOY_ALL", "1"), ("DEPLOY_ACCESSORIES", ""),
      ("DEPLOY_CREATURES", "")])) = true :=
  deploy_all_turns_every_flag_on
    (envOf [("DEPLOY_ALL", "1"), ("DEPLOY_ACCESSORIES", ""), ("DEPLOY_CREATURES", "")]) "1"
    (by decide) (by decide)

/-- C4: when DEPLOY_CREATURES, DEPLOY_CREATURES_SALE and DEPLOY_ALL are all
unset or empty, the computed DEPLOY_CREATURES flag is the negation of the
truthiness of the computed DEPLOY_ACCESSORIES flag: it is true exactly when
DEPLOY_ACCESSORIES is not truthy, which is exactly when the variables
DEPLOY_ACCESSORIES and DEPLOY_ACCESSORIES_SALE are both unset or empty. -/
theorem creatures_default_iff_accessories_off (env : Env)
    (hCre : missing (env "DEPLOY_CREATURES"))
    (hCreSale : missing (env "DEPLOY_CREATURES_SALE"))
    (hAll : missing (env "DEPLOY_ALL")) :
    DEPLOY_CREATURES env = JSVal.bool (!truthy (DEPLOY_ACCESSORIES env)) ∧
    (DEPLOY_CREATURES env = JSVal.bool true ↔ truthy (DEPLOY_ACCESSORIES env) = false) ∧
    (truthy (DEPLOY_ACCESSORIES env) = false ↔
      missing (env "DEPLOY_ACCESSORIES") ∧ missing (env "DEPLOY_ACCESSORIES_SALE")) := by
  have hAllF : truthy (processEnv env "DEPLOY_ALL") = false :=
    (truthy_processEnv_eq_false_iff env _).2 hAll
  have hCSF : truthy (processEnv env "DEPLOY_CREATURES_SALE") = false :=
    (truthy_processEnv_eq_false_iff env _).2 hCreSale
  have hCF : truthy (processEnv env "DEPLOY_CREATURES") = false :=
    (truthy_processEnv_eq_false_iff env _).2 hCre
  have h2 : truthy (jsOr (jsOr (processEnv env "DEPLOY_CREATURES")
      (DEPLOY_CREATURES_SALE env)) (DEPLOY_ALL env)) = false := by
    simp [truthy_jsOr, DEPLOY_CREATURES_SALE, DEPLOY_ALL, hCF, hCSF, hAllF]
  have hval : DEPLOY_CREATURES env = JSVal.bool (!truthy (DEPLOY_ACCESSORIES env)) := by
    unfold DEPLOY_CREATURES
    rw [jsOr_of_falsy _ _ h2]
    rfl
  refine ⟨hval, ?_, ?_⟩
  · rw [hval]
    cases truthy (DEPLOY_ACCESSORIES env) <;> simp
  · rw [← truthy_processEnv_eq_false_iff, ← truthy_processEnv_eq_false_iff]
    simp [DEPLOY_ACCESSORIES, DEPLOY_ACCESSORIES_SALE, DEPLOY_ALL, truthy_jsOr, hAllF]

theorem creatures_default_iff_accessories_off_witness :
    DEPLOY_CREATURES (envOf [("DEPLOY_ACCESSORIES_SALE", "1")])
      = JSVal.bool (!truthy (DEPLOY_ACCESSORIES (envOf [("DEPLOY_ACCESSORIES_SALE", "1")]))) ∧
    (DEPLOY_CREATURES (envOf [("DEPLOY_ACCESSORIES_SALE", "1")]) = JSVal.bool true ↔
      truthy (DEPLOY_ACCESSORIES (envOf [("DEPLOY_ACCESSORIES_SALE", "1")])) = false) ∧
    (truthy (DEPLOY_ACCESSORIES (envOf [("DEPLOY_ACCESSORIES_SALE", "1")])) = false ↔
      missing (envOf [("DEPLOY_ACCESSORIES_SALE", "1")] "DEPLOY_ACCESSORIES") ∧
      missing (envOf [("DEPLOY_ACCESSORIES_SALE", "1")] "DEPLOY_ACCESSORIES_SALE")) :=
  creatures_default_iff_accessories_off (envOf [("DEPLOY_ACCESSORIES_SALE", "1")])
    (by decide) (by decide) (by decide)

/-- C10, as stated, fails: with DEPLOY_ALL set to "1" all four computed flags
are truthy, yet the migration makes a single deployer.deploy call; and with
only DEPLOY_ACCESSORIES set the DEPLOY_CREATURES flag is false while the
deployment made is the same one. -/
theorem four_flags_one_deployment :
    trueFlagCount (envOf [("DEPLOY_ALL", "1")]) = 4 ∧
    deployCallCount (envOf [("DEPLOY_ALL", "1")]) true "development" [] = 1 ∧
    deployCallCount (envOf [("DEPLOY_ALL", "1")]) true "development" []
      ≠ trueFlagCount (envOf [("DEPLOY_ALL", "1")]) := by
  decide

/-- C10, amended: for every environment the exported migration function makes
exactly one deployer.deploy call, for the ExampleNFT artifact, whether or not
that deployment succeeds; the call does not depend on the computed flags. -/
theorem migration_deploys_exactly_once (env : Env) (d : Deployer) (network : String)
    (addresses : List String) (ok : Bool) :
    (moduleExports env d network addresses).deployer.deployed = d.deployed ++ ["ExampleNFT"] ∧
    deployCallCount env ok network addresses = 1 ∧
    (∀ env2 : Env, moduleExports env2 d network addresses
      = moduleExports env d network addresses) := by
  refine ⟨rfl, rfl, fun _ => rfl⟩

/-! ## The mint script: helper lemmas -/

theorem guardFires_iff_missing (env : Env) :
    guardFires env = true ↔
      (missing (env "MNEMONIC") ∨ (missing (env "INFURA_KEY") ∧ missing (env "ALCHEMY_KEY")) ∨
        missing (env "OWNER_ADDRESS") ∨ missing (env "NETWORK")) := by
  simp only [guardFires, MNEMONIC, NODE_API_KEY, OWNER_ADDRESS, NETWORK, truthy_jsOr,
    Bool.or_eq_true, Bool.not_eq_true', Bool.or_eq_false_iff,
    truthy_processEnv_eq_false_iff]
  tauto

theorem main_of_guardFires (env : Env) (w : World) (h : guardFires env = true) :
    main env w = { trace := [Event.consoleError diagnostic], outcome := Outcome.fulfilled } := by
  simp [main, h]

theorem main_trace_of_guard_passed (env : Env) (w : World) (h : guardFires env = false) :
    ∃ rest, (main env w).trace
      = Event.newHDWalletProvider (MNEMONIC env) (endpoint env) :: rest := by
  unfold main
  simp only [h, Bool.false_eq_true, if_false]
  repeat' split
  all_goals simp

theorem exitCodes_main (env : Env) (w : World) : exitCodes (main env w).trace = [] := by
  unfold main
  repeat' split
  all_goals simp [exitCodes]

theorem exitCodes_append (a b : List Event) : exitCodes (a ++ b) = exitCodes a ++ exitCodes b := by
  simp [exitCodes]

theorem script_of_fulfilled (env : Env) (w : World)
    (h : (main env w).outcome = Outcome.fulfilled) :
    script env w = (main env w).trace ++ [Event.consoleLog "Done.", Event.processExit 0] := by
  simp [script, h]

theorem script_of_rejected (env : Env) (w : World) (err : String)
    (h : (main env w).outcome = Outcome.rejected err) :
    script env w = (main env w).trace ++ [Event.consoleError err, Event.processExit 1] := by
  simp [script, h]

theorem exitCodes_script_of_fulfilled (env : Env) (w : World)
    (h : (main env w).outcome = Outcome.fulfilled) : exitCodes (script env w) = [0] := by
  rw [script_of_fulfilled env w h, exitCodes_append, exitCodes_main]
  rfl

theorem exitCodes_script_of_rejected (env : Env) (w : World) (err : String)
    (h : (main env w).outcome = Outcome.rejected err) : exitCodes (script env w) = [1] := by
  rw [script_of_rejected env w err h, exitCodes_append, exitCodes_main]
  rfl

theorem main_of_success (env : Env) (w : World) (file abi : String) (hash : JSVal)
    (hg : guardFires env = false)
    (h1 : w.hdWalletProvider (MNEMONIC env) (endpoint env) = Except.ok ())
    (h2 : w.web3 = Except.ok ())
    (h3 : w.readFile abiPath = Except.ok file)
    (h4 : w.parseAbi file = Except.ok abi)
    (h5 : w.contract abi (FACTORY_CONTRACT_ADDRESS env) = Except.ok ())
    (h6 : w.preserveMint (FACTORY_CONTRACT_ADDRESS env) NUM_CREATURES (OWNER_ADDRESS env)
      (OWNER_ADDRESS env) = Except.ok hash) :
    main env w =
      { trace :=
          [Event.newHDWalletProvider (MNEMONIC env) (endpoint env),
           Event.newWeb3,
           Event.readFileSync abiPath,
           Event.jsonParse,
           Event.newContract abi (FACTORY_CONTRACT_ADDRESS env) 1000000,
           Event.send "preserveMint" NUM_CREATURES (OWNER_ADDRESS env) (OWNER_ADDRESS env),
           Event.consoleLog ("Minted creature. Transaction: " ++ jsToString hash)],
        outcome := Outcome.fulfilled } := by
  unfold main
  simp [hg, h1, h2, h3, h4, h5, h6]

theorem main_fulfilled_iff (env : Env) (w : World) :
    (main env w).outcome = Outcome.fulfilled ↔
      guardFires env = true ∨
      ∃ file abi hash,
        w.hdWalletProvider (MNEMONIC env) (endpoint env) = Except.ok () ∧
        w.web3 = Except.ok () ∧
        w.readFile abiPath = Except.ok file ∧
        w.parseAbi file = Except.ok abi ∧
        w.contract abi (FACTORY_CONTRACT_ADDRESS env) = Except.ok () ∧
        w.preserveMint (FACTORY_CONTRACT_ADDRESS env) NUM_CREATURES (OWNER_ADDRESS env)
          (OWNER_ADDRESS env) = Except.ok hash := by
  unfold main
  by_cases hg : guardFires env = true
  · simp [hg]
  · simp only [hg]
    cases h1 : w.hdWalletProvider (MNEMONIC env) (endpoint env) <;> simp
    cases h2 : w.web3 <;> simp
    cases h3 : w.readFile abiPath <;> simp
    rename_i file
    cases h4 : w.parseAbi file <;> simp
    rename_i abi
    cases h5 : w.contract abi (FACTORY_CONTRACT_ADDRESS env) <;> simp
    cases h6 : w.preserveMint (FACTORY_CONTRACT_ADDRESS env) NUM_CREATURES (OWNER_ADDRESS env)
      (OWNER_ADDRESS env) <;> simp

/-! ## The mint script: claims -/

/-- C5: network resolution is a two-way classifier on strings: "mainnet" and
"live" resolve to "mainnet", every other string (among them "rinkeby", the
empty string and "Mainnet") resolves to "rinkeby"; the resolution is a total
function, so it never fails. -/
theorem network_two_way_classifier (s : String) :
    ((s = "mainnet" ∨ s = "live") → network (JSVal.str s) = "mainnet") ∧
    ((s ≠ "mainnet" ∧ s ≠ "live") → network (JSVal.str s) = "rinkeby") ∧
    (network (JSVal.str s) = "mainnet" ∨ network (JSVal.str s) = "rinkeby") ∧
    network (JSVal.str "mainnet") = "mainnet" ∧
    network (JSVal.str "live") = "mainnet" ∧
    network (JSVal.str "rinkeby") = "rinkeby" ∧
    network (JSVal.str "") = "rinkeby" ∧
    network (JSVal.str "Mainnet") = "rinkeby" := by
  refine ⟨?_, ?_, ?_, by decide, by decide, by decide, by decide, by decide⟩
  · intro h
    simp [network, h]
  · intro h
    simp [network, h.1, h.2]
  · by_cases h : s = "mainnet" ∨ s = "live"
    · left; simp [network, h]
    · right; simp [network, h]

theorem network_two_way_classifier_witness :
    network (JSVal.str "live") = "mainnet" ∧ network (JSVal.str "ropsten") = "rinkeby" :=
  ⟨(network_two_way_classifier "live").1 (Or.inr rfl),
   (network_two_way_classifier "ropsten").2.1 ⟨by decide, by decide⟩⟩

/-- C6: if MNEMONIC, the API key (INFURA_KEY || ALCHEMY_KEY), OWNER_ADDRESS or
NETWORK is unset or empty, main() only prints the diagnostic and returns: no
provider, web3 client or contract handle is constructed, the ABI file is not
read and the whole script run contains no remote call. Conversely, when all
four are non-empty, the first thing main() does is construct the provider. -/
theorem guard_returns_before_any_activity (env : Env) (w : World) :
    ((missing (env "MNEMONIC") ∨ (missing (env "INFURA_KEY") ∧ missing (env "ALCHEMY_KEY")) ∨
        missing (env "OWNER_ADDRESS") ∨ missing (env "NETWORK")) →
      main env w = { trace := [Event.consoleError diagnostic], outcome := Outcome.fulfilled } ∧
      (main env w).trace.filter Event.isActivity = [] ∧
      (script env w).filter Event.isActivity = [] ∧
      (script env w).filter Event.isRemoteCall = []) ∧
    ((¬ missing (env "MNEMONIC") ∧ ¬ (missing (env "INFURA_KEY") ∧ missing (env "ALCHEMY_KEY")) ∧
        ¬ missing (env "OWNER_ADDRESS") ∧ ¬ missing (env "NETWORK")) →
      ∃ rest, (main env w).trace
        = Event.newHDWalletProvider (MNEMONIC env) (endpoint env) :: rest) := by
  constructor
  · intro h
    have hg : guardFires env = true := (guardFires_iff_missing env).2 h
    have hm := main_of_guardFires env w hg
    refine ⟨hm, ?_, ?_, ?_⟩
    · rw [hm]; rfl
    · simp only [script, hm]; rfl
    · simp only [script, hm]; rfl
  · intro h
    have hg : guardFires env = false := by
      cases hgf : guardFires env with
      | false => rfl
      | true =>
        have := (guardFires_iff_missing env).1 hgf
        tauto
    exact main_trace_of_guard_passed env w hg

theorem guard_returns_before_any_activity_witness :
    (main emptyNetworkEnv (cooperativeWorld "0xh")
      = { trace := [Event.consoleError diagnostic], outcome := Outcome.fulfilled } ∧
     (main emptyNetworkEnv (cooperativeWorld "0xh")).trace.filter Event.isActivity = [] ∧
     (script emptyNetworkEnv (cooperativeWorld "0xh")).filter Event.isActivity = [] ∧
     (script emptyNetworkEnv (cooperativeWorld "0xh")).filter Event.isRemoteCall = []) ∧
    (∃ rest, (main alchemyEnv (cooperativeWorld "0xh")).trace
      = Event.newHDWalletProvider (MNEMONIC alchemyEnv) (endpoint alchemyEnv) :: rest) :=
  ⟨(guard_returns_before_any_activity emptyNetworkEnv (cooperativeWorld "0xh")).1
      (Or.inr (Or.inr (Or.inr (by decide)))),
   (guard_returns_before_any_activity alchemyEnv (cooperativeWorld "0xh")).2
      ⟨by decide, by decide, by decide, by decide⟩⟩

/-- C7: evaluation at the failing input. With MNEMONIC, an API key,
OWNER_ADDRESS and NETWORK set and FACTORY_CONTRACT_ADDRESS unset, the guard does
not fire: in every world main() constructs the wallet provider, and when the
collaborators succeed it builds the contract handle with an undefined address
and invokes preserveMint(...).send on it. -/
theorem missing_factory_address_is_not_guarded :
    noFactoryEnv "FACTORY_CONTRACT_ADDRESS" = none ∧
    guardFires noFactoryEnv = false ∧
    (∀ w : World, ∃ rest, (main noFactoryEnv w).trace
      = Event.newHDWalletProvider (JSVal.str "test test test")
          "https://eth-rinkeby.alchemyapi.io/v2/alch" :: rest) ∧
    script noFactoryEnv (cooperativeWorld "0xh") =
      [Event.newHDWalletProvider (JSVal.str "test test test")
         "https://eth-rinkeby.alchemyapi.io/v2/alch",
       Event.newWeb3,
       Event.readFileSync ["..", "build", "contracts", "ExampleNFT.json"],
       Event.jsonParse,
       Event.newContract "[]" JSVal.undefined 1000000,
       Event.send "preserveMint" 1 (JSVal.str "0xA") (JSVal.str "0xA"),
       Event.consoleLog "Minted creature. Transaction: 0xh",
       Event.consoleLog "Done.",
       Event.processExit 0] := by
  refine ⟨by decide, by decide, ?_, by decide⟩
  intro w
  have h := main_trace_of_guard_passed noFactoryEnv w (by decide)
  have e1 : MNEMONIC noFactoryEnv = JSVal.str "test test test" := by decide
  have e2 : endpoint noFactoryEnv = "https://eth-rinkeby.alchemyapi.io/v2/alch" := by decide
  rw [e1, e2] at h
  exact h

/-- C8: for every environment passing the precondition check, the URL handed to
the wallet provider is the Infura URL with INFURA_KEY when INFURA_KEY is
non-empty (whatever ALCHEMY_KEY holds), and otherwise the Alchemy URL with
ALCHEMY_KEY, which is then non-empty; the network in it is the resolved
network name. -/
theorem endpoint_pairs_key_with_its_host (env : Env) (w : World)
    (hg : guardFires env = false) :
    (∀ k, env "INFURA_KEY" = some k → k ≠ "" →
      endpoint env = "https://" ++ network (NETWORK env) ++ ".infura.io/v3/" ++ k) ∧
    (missing (env "INFURA_KEY") →
      ∃ a, env "ALCHEMY_KEY" = some a ∧ a ≠ "" ∧
        endpoint env = "https://eth-" ++ network (NETWORK env) ++ ".alchemyapi.io/v2/" ++ a) ∧
    (∃ rest, (main env w).trace
      = Event.newHDWalletProvider (MNEMONIC env) (endpoint env) :: rest) := by
  refine ⟨?_, ?_, main_trace_of_guard_passed env w hg⟩
  · intro k hk hne
    have hT : truthy (processEnv env "INFURA_KEY") = true :=
      truthy_processEnv_of_set env _ k hk hne
    have hkey : NODE_API_KEY env = JSVal.str k := by
      unfold NODE_API_KEY
      rw [jsOr_of_truthy _ _ hT]
      simp [processEnv, hk]
    simp [endpoint, isInfura, hT, hkey, jsToString]
  · intro hmiss
    have hF : truthy (processEnv env "INFURA_KEY") = false :=
      (truthy_processEnv_eq_false_iff env _).2 hmiss
    have hkey : NODE_API_KEY env = processEnv env "ALCHEMY_KEY" := by
      unfold NODE_API_KEY
      exact jsOr_of_falsy _ _ hF
    have hkt : truthy (NODE_API_KEY env) = true := by
      simp only [guardFires, Bool.or_eq_false_iff, Bool.not_eq_false'] at hg
      exact hg.1.1.2
    rw [hkey] at hkt
    cases ha : env "ALCHEMY_KEY" with
    | none => simp [processEnv, ha, truthy] at hkt
    | some a =>
      have hne : a ≠ "" := by
        simpa [processEnv, ha, truthy] using hkt
      refine ⟨a, rfl, hne, ?_⟩
      unfold endpoint isInfura
      rw [hF, hkey]
      simp [processEnv, ha, jsToString]

theorem endpoint_pairs_key_with_its_host_witness :
    endpoint bothKeysEnv = "https://" ++ network (NETWORK bothKeysEnv) ++ ".infura.io/v3/" ++ "inf" ∧
    (∃ a, alchemyEnv "ALCHEMY_KEY" = some a ∧ a ≠ "" ∧
      endpoint alchemyEnv
        = "https://eth-" ++ network (NETWORK alchemyEnv) ++ ".alchemyapi.io/v2/" ++ a) :=
  ⟨(endpoint_pairs_key_with_its_host bothKeysEnv (cooperativeWorld "0xh") (by decide)).1
      "inf" (by decide) (by decide),
   (endpoint_pairs_key_with_its_host alchemyEnv (cooperativeWorld "0xh") (by decide)).2.1
      (by decide)⟩


/-- C9: the script exits exactly once, with code 1 exactly when main() rejects
and with code 0 exactly when it fulfils. main() fulfils exactly when the guard
fired or every collaborator call (provider, web3, ABI read, ABI parse, contract
handle, preserveMint send) succeeded; so the exit code is 0 after the
precondition-failure early return and after a mint whose hash was logged, and 1
when a collaborator throws or rejects. -/
theorem exit_code_follows_main_outcome (env : Env) (w : World) :
    (exitCodes (script env w) = [1] ↔ ∃ err, (main env w).outcome = Outcome.rejected err) ∧
    (exitCodes (script env w) = [0] ↔ (main env w).outcome = Outcome.fulfilled) ∧
    (exitCodes (script env w) = [0] ∨ exitCodes (script env w) = [1]) ∧
    ((main env w).outcome = Outcome.fulfilled ↔
      guardFires env = true ∨
      ∃ file abi hash,
        w.hdWalletProvider (MNEMONIC env) (endpoint env) = Except.ok () ∧
        w.web3 = Except.ok () ∧
        w.readFile abiPath = Except.ok file ∧
        w.parseAbi file = Except.ok abi ∧
        w.contract abi (FACTORY_CONTRACT_ADDRESS env) = Except.ok () ∧
        w.preserveMint (FACTORY_CONTRACT_ADDRESS env) NUM_CREATURES (OWNER_ADDRESS env)
          (OWNER_ADDRESS env) = Except.ok hash) ∧
    (guardFires env = true →
      script env w = [Event.consoleError diagnostic, Event.consoleLog "Done.",
        Event.processExit 0]) ∧
    (∀ file abi hash, guardFires env = false →
        w.hdWalletProvider (MNEMONIC env) (endpoint env) = Except.ok () →
        w.web3 = Except.ok () →
        w.readFile abiPath = Except.ok file →
        w.parseAbi file = Except.ok abi →
        w.contract abi (FACTORY_CONTRACT_ADDRESS env) = Except.ok () →
        w.preserveMint (FACTORY_CONTRACT_ADDRESS env) NUM_CREATURES (OWNER_ADDRESS env)
          (OWNER_ADDRESS env) = Except.ok hash →
      ∃ before, script env w = before ++
        [Event.consoleLog ("Minted creature. Transaction: " ++ jsToString hash),
         Event.consoleLog "Done.", Event.processExit 0]) ∧
    (∀ err, (main env w).outcome = Outcome.rejected err →
      script env w = (main env w).trace ++ [Event.consoleError err, Event.processExit 1]) := by
  have hcodes : ∀ o, (main env w).outcome = o →
      exitCodes (script env w) = (match o with
        | Outcome.fulfilled => [0]
        | Outcome.rejected _ => [1]) := by
    intro o ho
    cases o with
    | fulfilled => exact exitCodes_script_of_fulfilled env w ho
    | rejected e => exact exitCodes_script_of_rejected env w e ho
  refine ⟨?_, ?_, ?_, main_fulfilled_iff env w, ?_, ?_, ?_⟩
  · cases ho : (main env w).outcome with
    | fulfilled => simp [hcodes _ ho]
    | rejected e => simp [hcodes _ ho]
  · cases ho : (main env w).outcome with
    | fulfilled => simp [hcodes _ ho]
    | rejected e => simp [hcodes _ ho]
  · cases ho : (main env w).outcome with
    | fulfilled => simp [hcodes _ ho]
    | rejected e => simp [hcodes _ ho]
  · intro hg
    simp [script, main_of_guardFires env w hg]
  · intro file abi hash hg h1 h2 h3 h4 h5 h6
    have hm := main_of_success env w file abi hash hg h1 h2 h3 h4 h5 h6
    refine ⟨[Event.newHDWalletProvider (MNEMONIC env) (endpoint env), Event.newWeb3,
      Event.readFileSync abiPath, Event.jsonParse,
      Event.newContract abi (FACTORY_CONTRACT_ADDRESS env) 1000000,
      Event.send "preserveMint" NUM_CREATURES (OWNER_ADDRESS env) (OWNER_ADDRESS env)], ?_⟩
    simp [script, hm]
  · intro err he
    exact script_of_rejected env w err he

theorem exit_code_follows_main_outcome_witness :
    script emptyNetworkEnv (cooperativeWorld "0xh")
      = [Event.consoleError diagnostic, Event.consoleLog "Done.", Event.processExit 0] ∧
    exitCodes (script alchemyEnv (cooperativeWorld "0xh")) = [0] ∧
    exitCodes (script alchemyEnv (failingMintWorld "reverted")) = [1] :=
  ⟨(exit_code_follows_main_outcome emptyNetworkEnv (cooperativeWorld "0xh")).2.2.2.2.1
      (by decide),
   (exit_code_follows_main_outcome alchemyEnv (cooperativeWorld "0xh")).2.1.2 (by decide),
   (exit_code_follows_main_outcome alchemyEnv (failingMintWorld "reverted")).1.2
      ⟨"reverted", by decide⟩⟩
